import Mathlib

/-!
Verification of the call-survey plugin's decision engine
(`src/survey_plugin/services.py`, `models.py`, `database.py`, `api.py`).

The Python code is shallowly embedded: dictionaries become association
lists, `datetime` values become integer timestamps (seconds), Python
`float` percentages become rationals (only order comparisons are used),
raised exceptions become `Option`/`Except` error values, and the
`caller_eligibility` table becomes a function from the primary key
`(caller_id, tenant_uuid)` to an optional row.

Machine-level primitives used by the webhook signer (MD5 for sampling,
HMAC-SHA256 for signatures) are implemented in full over `Nat` with
explicit reduction modulo 2^32.
-/

namespace SurveyPlugin

/-! ## JSON values

Model of the Python objects handled by `json.dumps` / `json.loads`.
Numbers are restricted to integers (the repository's payloads and the
properties below never rely on floating-point literals). -/

inductive Json where
  | null : Json
  | bool : Bool → Json
  | int : Int → Json
  | str : String → Json
  | arr : List Json → Json
  | obj : List (String × Json) → Json

/-! ## 32-bit word arithmetic over `Nat` -/

def w32 : Nat := 4294967296

def mask32 : Nat := 4294967295

def add32 (a b : Nat) : Nat := (a + b) % w32

def rotl32 (x n : Nat) : Nat := ((x <<< n) ||| (x >>> (32 - n))) % w32

def rotr32 (x n : Nat) : Nat := ((x >>> n) ||| (x <<< (32 - n))) % w32

def not32 (x : Nat) : Nat := mask32 ^^^ x

/-! ## Bytes, UTF-8 and hex -/

/-- UTF-8 encoding of a single character (model of Python `str.encode('utf-8')`). -/
def utf8Char (c : Char) : List Nat :=
  let n := c.toNat
  if n < 128 then [n]
  else if n < 2048 then [192 ||| (n >>> 6), 128 ||| (n &&& 63)]
  else if n < 65536 then
    [224 ||| (n >>> 12), 128 ||| ((n >>> 6) &&& 63), 128 ||| (n &&& 63)]
  else
    [240 ||| (n >>> 18), 128 ||| ((n >>> 12) &&& 63),
     128 ||| ((n >>> 6) &&& 63), 128 ||| (n &&& 63)]

def utf8Encode (s : String) : List Nat := s.data.flatMap utf8Char

def hexDigitChar (n : Nat) : Char := "0123456789abcdef".data.getD n '0'

/-- Two lowercase hex characters for one byte, as in Python `%02x` / `hexdigest`. -/
def hexByte (b : Nat) : List Char := [hexDigitChar ((b >>> 4) % 16), hexDigitChar (b % 16)]

def hexOfBytes (bs : List Nat) : String := String.mk (bs.flatMap hexByte)

def isHexChar (c : Char) : Bool := "0123456789abcdef".data.contains c

/-- Big-endian byte rendering of `n` on `k` bytes. -/
def natToBytesBE (k n : Nat) : List Nat :=
  (List.range k).map (fun i => (n >>> (8 * (k - 1 - i))) % 256)

/-- Little-endian byte rendering of `n` on `k` bytes. -/
def natToBytesLE (k n : Nat) : List Nat :=
  (List.range k).map (fun i => (n >>> (8 * i)) % 256)

/-- The integer denoted by a digest's `hexdigest` read back with `int(·, 16)`:
bytes in digest order, big-endian. -/
def bytesToNatBE (bs : List Nat) : Nat := bs.foldl (fun a b => a * 256 + b) 0

/-- Split a list into chunks of `n` elements (`n > 0` on all uses). -/
def chunksOf (n : Nat) (l : List Nat) : List (List Nat) :=
  match l with
  | [] => []
  | x :: xs =>
    match n with
    | 0 => []
    | m + 1 => ((x :: xs).take (m + 1)) :: chunksOf (m + 1) ((x :: xs).drop (m + 1))
termination_by l.length
decreasing_by simp [List.length_drop]; omega

/-! ## SHA-256 -/

structure Sha256H where
  h0 : Nat
  h1 : Nat
  h2 : Nat
  h3 : Nat
  h4 : Nat
  h5 : Nat
  h6 : Nat
  h7 : Nat

def sha256Init : Sha256H :=
  ⟨1779033703, 3144134277, 1013904242,
   2773480762, 1359893119, 2600822924,
   528734635, 1541459225⟩

def sha256K : List Nat :=
  [1116352408, 1899447441, 3049323471, 3921009573, 961987163, 1508970993,
   2453635748, 2870763221, 3624381080, 310598401, 607225278, 1426881987,
   1925078388, 2162078206, 2614888103, 3248222580, 3835390401, 4022224774,
   264347078, 604807628, 770255983, 1249150122, 1555081692, 1996064986,
   2554220882, 2821834349, 2952996808, 3210313671, 3336571891, 3584528711,
   113926993, 338241895, 666307205, 773529912, 1294757372, 1396182291,
   1695183700, 1986661051, 2177026350, 2456956037, 2730485921, 2820302411,
   3259730800, 3345764771, 3516065817, 3600352804, 4094571909, 275423344,
   430227734, 506948616, 659060556, 883997877, 958139571, 1322822218,
   1537002063, 1747873779, 1955562222, 2024104815, 2227730452, 2361852424,
   2428436474, 2756734187, 3204031479, 3329325298]

def sha256Pad (msg : List Nat) : List Nat :=
  let z := (120 - ((msg.length + 1) % 64)) % 64
  msg ++ [128] ++ List.replicate z 0 ++ natToBytesBE 8 (msg.length * 8)

def wordBE (chunk : List Nat) (off : Nat) : Nat :=
  chunk.getD off 0 * 16777216 + chunk.getD (off + 1) 0 * 65536 +
    chunk.getD (off + 2) 0 * 256 + chunk.getD (off + 3) 0

def sha256SmallSigma0 (x : Nat) : Nat := rotr32 x 7 ^^^ rotr32 x 18 ^^^ (x >>> 3)
def sha256SmallSigma1 (x : Nat) : Nat := rotr32 x 17 ^^^ rotr32 x 19 ^^^ (x >>> 10)
def sha256BigSigma0 (x : Nat) : Nat := rotr32 x 2 ^^^ rotr32 x 13 ^^^ rotr32 x 22
def sha256BigSigma1 (x : Nat) : Nat := rotr32 x 6 ^^^ rotr32 x 11 ^^^ rotr32 x 25

def sha256ExtendStep (acc : List Nat) : List Nat :=
  let n := acc.length
  acc ++ [(sha256SmallSigma1 (acc.getD (n - 2) 0) + acc.getD (n - 7) 0 +
           sha256SmallSigma0 (acc.getD (n - 15) 0) + acc.getD (n - 16) 0) % w32]

def sha256Schedule (chunk : List Nat) : List Nat :=
  let w16 := (List.range 16).map (fun i => wordBE chunk (4 * i))
  (List.range 48).foldl (fun acc _ => sha256ExtendStep acc) w16

structure Sha256W where
  a : Nat
  b : Nat
  c : Nat
  d : Nat
  e : Nat
  f : Nat
  g : Nat
  h : Nat

def sha256Round (st : Sha256W) (kw : Nat × Nat) : Sha256W :=
  let ch := (st.e &&& st.f) ^^^ (not32 st.e &&& st.g)
  let maj := (st.a &&& st.b) ^^^ (st.a &&& st.c) ^^^ (st.b &&& st.c)
  let t1 := (st.h + sha256BigSigma1 st.e + ch + kw.1 + kw.2) % w32
  let t2 := (sha256BigSigma0 st.a + maj) % w32
  ⟨(t1 + t2) % w32, st.a, st.b, st.c, (st.d + t1) % w32, st.e, st.f, st.g⟩

def sha256Compress (h : Sha256H) (chunk : List Nat) : Sha256H :=
  let w := sha256Schedule chunk
  let s0 : Sha256W := ⟨h.h0, h.h1, h.h2, h.h3, h.h4, h.h5, h.h6, h.h7⟩
  let s := (sha256K.zip w).foldl sha256Round s0
  ⟨add32 h.h0 s.a, add32 h.h1 s.b, add32 h.h2 s.c, add32 h.h3 s.d,
   add32 h.h4 s.e, add32 h.h5 s.f, add32 h.h6 s.g, add32 h.h7 s.h⟩

def word4BE (x : Nat) : List Nat := [(x >>> 24) % 256, (x >>> 16) % 256, (x >>> 8) % 256, x % 256]

def sha256 (msg : List Nat) : List Nat :=
  let h := (chunksOf 64 (sha256Pad msg)).foldl sha256Compress sha256Init
  word4BE h.h0 ++ word4BE h.h1 ++ word4BE h.h2 ++ word4BE h.h3 ++
    word4BE h.h4 ++ word4BE h.h5 ++ word4BE h.h6 ++ word4BE h.h7

/-- HMAC-SHA256 (model of Python `hmac.new(key, msg, hashlib.sha256)`), block size 64. -/
def hmacSha256 (key msg : List Nat) : List Nat :=
  let k0 := if 64 < key.length then sha256 key else key
  let kp := k0 ++ List.replicate (64 - k0.length) 0
  let ipadKey := kp.map (fun b => b ^^^ 54)
  let opadKey := kp.map (fun b => b ^^^ 92)
  sha256 (opadKey ++ sha256 (ipadKey ++ msg))

/-! ## MD5 -/

def md5K : List Nat :=
  [3614090360, 3905402710, 606105819, 3250441966, 4118548399, 1200080426,
   2821735955, 4249261313, 1770035416, 2336552879, 4294925233, 2304563134,
   1804603682, 4254626195, 2792965006, 1236535329, 4129170786, 3225465664,
   643717713, 3921069994, 3593408605, 38016083, 3634488961, 3889429448,
   568446438, 3275163606, 4107603335, 1163531501, 2850285829, 4243563512,
   1735328473, 2368359562, 4294588738, 2272392833, 1839030562, 4259657740,
   2763975236, 1272893353, 4139469664, 3200236656, 681279174, 3936430074,
   3572445317, 76029189, 3654602809, 3873151461, 530742520, 3299628645,
   4096336452, 1126891415, 2878612391, 4237533241, 1700485571, 2399980690,
   4293915773, 2240044497, 1873313359, 4264355552, 2734768916, 1309151649,
   4149444226, 3174756917, 718787259, 3951481745]

def md5S : List Nat :=
  [7, 12, 17, 22, 7, 12, 17, 22, 7, 12, 17, 22, 7, 12, 17, 22,
   5, 9, 14, 20, 5, 9, 14, 20, 5, 9, 14, 20, 5, 9, 14, 20,
   4, 11, 16, 23, 4, 11, 16, 23, 4, 11, 16, 23, 4, 11, 16, 23,
   6, 10, 15, 21, 6, 10, 15, 21, 6, 10, 15, 21, 6, 10, 15, 21]

structure Md5St where
  a : Nat
  b : Nat
  c : Nat
  d : Nat

def md5Init : Md5St := ⟨1732584193, 4023233417, 2562383102, 271733878⟩

def md5Pad (msg : List Nat) : List Nat :=
  let z := (120 - ((msg.length + 1) % 64)) % 64
  msg ++ [128] ++ List.replicate z 0 ++ natToBytesLE 8 (msg.length * 8)

def wordLE (chunk : List Nat) (off : Nat) : Nat :=
  chunk.getD off 0 + chunk.getD (off + 1) 0 * 256 +
    chunk.getD (off + 2) 0 * 65536 + chunk.getD (off + 3) 0 * 16777216

def md5FG (st : Md5St) (i : Nat) : Nat × Nat :=
  if i < 16 then ((st.b &&& st.c) ||| (not32 st.b &&& st.d), i)
  else if i < 32 then ((st.d &&& st.b) ||| (not32 st.d &&& st.c), (5 * i + 1) % 16)
  else if i < 48 then (st.b ^^^ st.c ^^^ st.d, (3 * i + 5) % 16)
  else (st.c ^^^ (st.b ||| not32 st.d), (7 * i) % 16)

def md5Round (m : List Nat) (st : Md5St) (i : Nat) : Md5St :=
  let fg := md5FG st i
  let rot := rotl32 ((st.a + fg.1 + md5K.getD i 0 + m.getD fg.2 0) % w32) (md5S.getD i 0)
  ⟨st.d, (st.b + rot) % w32, st.b, st.c⟩

def md5Compress (st : Md5St) (chunk : List Nat) : Md5St :=
  let m := (List.range 16).map (fun j => wordLE chunk (4 * j))
  let s := (List.range 64).foldl (md5Round m) st
  ⟨add32 st.a s.a, add32 st.b s.b, add32 st.c s.c, add32 st.d s.d⟩

def word4LE (x : Nat) : List Nat := [x % 256, (x >>> 8) % 256, (x >>> 16) % 256, (x >>> 24) % 256]

def md5 (msg : List Nat) : List Nat :=
  let s := (chunksOf 64 (md5Pad msg)).foldl md5Compress md5Init
  word4LE s.a ++ word4LE s.b ++ word4LE s.c ++ word4LE s.d

/-- `int(hashlib.md5(caller_id.encode()).hexdigest(), 16)` -/
def md5Int (s : String) : Nat := bytesToNatBE (md5 (utf8Encode s))

/-! ## JSON serialization and parsing -/

def hex4 (n : Nat) : List Char :=
  [hexDigitChar ((n >>> 12) % 16), hexDigitChar ((n >>> 8) % 16),
   hexDigitChar ((n >>> 4) % 16), hexDigitChar (n % 16)]

/-- JSON string escaping as in Python `json.dumps` (`ensure_ascii=True`):
printable ASCII except `"` and `\` is literal, short escapes for the usual
control characters, `\uXXXX` otherwise (surrogate pairs above the BMP). -/
def escChar (c : Char) : List Char :=
  if c = '"' then ['\\', '"']
  else if c = '\\' then ['\\', '\\']
  else if c = '\n' then ['\\', 'n']
  else if c = '\r' then ['\\', 'r']
  else if c = '\t' then ['\\', 't']
  else if c = '\x08' then ['\\', 'b']
  else if c = '\x0c' then ['\\', 'f']
  else if c.toNat < 32 then '\\' :: 'u' :: hex4 c.toNat
  else if c.toNat < 127 then [c]
  else if c.toNat < 65536 then '\\' :: 'u' :: hex4 c.toNat
  else
    let n := c.toNat - 65536
    ('\\' :: 'u' :: hex4 (55296 + (n >>> 10))) ++ ('\\' :: 'u' :: hex4 (56320 + (n &&& 1023)))

def escString (s : String) : List Char := '"' :: s.data.flatMap escChar ++ ['"']

/-- Order on dict items used by `json.dumps(..., sort_keys=True)`
(CPython sorts `dct.items()`; with the distinct keys of a `dict`,
this is ordering by key). -/
def keyLe (a b : String × Json) : Prop := a.1 ≤ b.1

instance : DecidableRel keyLe := fun a b => inferInstanceAs (Decidable (a.1 ≤ b.1))

instance : IsTotal (String × Json) keyLe := ⟨fun a b => le_total a.1 b.1⟩

instance : IsTrans (String × Json) keyLe := ⟨fun _ _ _ h1 h2 => le_trans h1 h2⟩

def sortItems (kvs : List (String × Json)) : List (String × Json) :=
  List.insertionSort keyLe kvs

mutual

/-- Serialization of a JSON value as in Python
`json.dumps(x, sort_keys=True)` (default separators `", "` and `": "`). -/
def serJson : Json → List Char
  | .null => "null".data
  | .bool true => "true".data
  | .bool false => "false".data
  | .int n => (toString n).data
  | .str s => escString s
  | .arr xs => '\x5b' :: (serArr xs ++ [']'])
  | .obj kvs => '\x7b' :: (serItems (sortItems kvs) ++ ['\x7d'])
termination_by j => sizeOf j
decreasing_by
  all_goals simp_wf
  have h := (List.perm_insertionSort keyLe kvs).sizeOf_eq_sizeOf
  simp [sortItems]
  omega

def serArr : List Json → List Char
  | [] => []
  | [x] => serJson x
  | x :: y :: rest => serJson x ++ ',' :: ' ' :: serArr (y :: rest)
termination_by xs => sizeOf xs
decreasing_by all_goals (simp_wf; try omega)

def serItems : List (String × Json) → List Char
  | [] => []
  | [(k, v)] => escString k ++ ':' :: ' ' :: serJson v
  | (k, v) :: kv :: rest =>
    (escString k ++ ':' :: ' ' :: serJson v) ++ ',' :: ' ' :: serItems (kv :: rest)
termination_by kvs => sizeOf kvs
decreasing_by all_goals (simp_wf; try omega)

end

def dumps (j : Json) : String := String.mk (serJson j)

/-! ## Parser (model of Python `json.loads`, restricted to integer numerals) -/

def skipWs (cs : List Char) : List Char :=
  cs.dropWhile (fun c => c == ' ' || c == '\n' || c == '\r' || c == '\t')

def hexVal (c : Char) : Option Nat :=
  if '0' ≤ c ∧ c ≤ '9' then some (c.toNat - 48)
  else if 'a' ≤ c ∧ c ≤ 'f' then some (c.toNat - 87)
  else if 'A' ≤ c ∧ c ≤ 'F' then some (c.toNat - 55)
  else none

def parseStringBody : List Char → Option (List Char × List Char)
  | [] => none
  | '"' :: rest => some ([], rest)
  | '\\' :: e :: rest =>
    if e = 'u' then
      match rest with
      | a :: b :: c :: d :: rest2 =>
        match hexVal a, hexVal b, hexVal c, hexVal d with
        | some x, some y, some z, some w =>
          match parseStringBody rest2 with
          | some (cs, r) => some (Char.ofNat (((x * 16 + y) * 16 + z) * 16 + w) :: cs, r)
          | none => none
        | _, _, _, _ => none
      | _ => none
    else
      match
        (if e = '"' then some '"'
         else if e = '\\' then some '\\'
         else if e = '/' then some '/'
         else if e = 'n' then some '\n'
         else if e = 't' then some '\t'
         else if e = 'r' then some '\r'
         else if e = 'b' then some '\x08'
         else if e = 'f' then some '\x0c'
         else none) with
      | some c =>
        match parseStringBody rest with
        | some (cs, r) => some (c :: cs, r)
        | none => none
      | none => none
  | c :: rest =>
    match parseStringBody rest with
    | some (cs, r) => some (c :: cs, r)
    | none => none

def parseDigits : List Char → Nat → Option (Nat × List Char)
  | [], acc => some (acc, [])
  | c :: rest, acc =>
    if c.isDigit then
      match parseDigits rest (acc * 10 + (c.toNat - 48)) with
      | some r => some r
      | none => none
    else some (acc, c :: rest)

def parseNumber (cs : List Char) : Option (Json × List Char) :=
  let core := fun (ds : List Char) (sign : Bool) =>
    match ds with
    | c :: rest2 =>
      if c.isDigit then
        if c == '0' && (match rest2 with | d :: _ => d.isDigit | [] => false) then none
        else
          match parseDigits ds 0 with
          | some (n, rest) =>
            match rest with
            | r :: _ => if r = '.' || r = 'e' || r = 'E' then none
                        else some (Json.int (if sign then -(n : Int) else (n : Int)), rest)
            | [] => some (Json.int (if sign then -(n : Int) else (n : Int)), rest)
          | none => none
      else none
    | [] => none
  match cs with
  | '-' :: rest => core rest true
  | _ => core cs false

mutual

def parseVal : Nat → List Char → Option (Json × List Char)
  | 0, _ => none
  | fuel + 1, cs =>
    match skipWs cs with
    | [] => none
    | c :: rest =>
      if c = 'n' then
        match rest with
        | 'u' :: 'l' :: 'l' :: r => some (Json.null, r)
        | _ => none
      else if c = 't' then
        match rest with
        | 'r' :: 'u' :: 'e' :: r => some (Json.bool true, r)
        | _ => none
      else if c = 'f' then
        match rest with
        | 'a' :: 'l' :: 's' :: 'e' :: r => some (Json.bool false, r)
        | _ => none
      else if c = '"' then
        match parseStringBody rest with
        | some (cs2, r) => some (Json.str (String.mk cs2), r)
        | none => none
      else if c = '\x5b' then
        match skipWs rest with
        | ']' :: r => some (Json.arr [], r)
        | r2 =>
          match parseElems fuel r2 with
          | some (xs, r) => some (Json.arr xs, r)
          | none => none
      else if c = '\x7b' then
        match skipWs rest with
        | '\x7d' :: r => some (Json.obj [], r)
        | r2 =>
          match parseMembers fuel r2 with
          | some (kvs, r) => some (Json.obj kvs, r)
          | none => none
      else parseNumber (c :: rest)

def parseElems : Nat → List Char → Option (List Json × List Char)
  | 0, _ => none
  | fuel + 1, cs =>
    match parseVal fuel cs with
    | some (v, r) =>
      match skipWs r with
      | ',' :: r2 =>
        match parseElems fuel r2 with
        | some (vs, r3) => some (v :: vs, r3)
        | none => none
      | ']' :: r2 => some ([v], r2)
      | _ => none
    | none => none

def parseMembers : Nat → List Char → Option (List (String × Json) × List Char)
  | 0, _ => none
  | fuel + 1, cs =>
    match skipWs cs with
    | '"' :: rest =>
      match parseStringBody rest with
      | some (kcs, r) =>
        match skipWs r with
        | ':' :: r2 =>
          match parseVal fuel r2 with
          | some (v, r3) =>
            match skipWs r3 with
            | ',' :: r4 =>
              match parseMembers fuel r4 with
              | some (kvs, r5) => some ((String.mk kcs, v) :: kvs, r5)
              | none => none
            | '\x7d' :: r4 => some ([(String.mk kcs, v)], r4)
            | _ => none
          | none => none
        | _ => none
      | none => none
    | _ => none

end

/-- Model of Python `json.loads`, restricted to the JSON fragment with
integer numerals (floating-point literals are outside the modelled subset;
leading-zero numerals are rejected, as `json.loads` rejects them). `none`
models a raised `json.JSONDecodeError` escaping to the caller. -/
def loads (s : String) : Option Json :=
  match parseVal (s.length + 16) s.data with
  | some (v, rest) => if (skipWs rest).isEmpty then some v else none
  | none => none

/-! ## Data model (models.py / database.py schema) -/

/-- Row of the `caller_eligibility` table / `CallerEligibility` model.
Timestamps are integer seconds since an arbitrary epoch. -/
structure CallerEligibility where
  caller_id : String
  tenant_uuid : String
  last_surveyed : Option Int
  survey_count : Int
  is_blacklisted : Bool
  blacklist_reason : Option String
  created_at : Int
  updated_at : Int
deriving DecidableEq

/-- `SurveyInstance` model fields consulted by the decision engine, with the
constructor defaults of models.py (`sampling_percentage=100.0`,
`cooldown_hours=24`, `is_active=True`). -/
structure SurveyInstance where
  instance_id : String
  template_id : String
  name : String := ""
  sampling_percentage : Rat := 100
  cooldown_hours : Int := 24
  is_active : Bool := true
deriving DecidableEq

inductive ResponseStatus where
  | pending : ResponseStatus
  | completed : ResponseStatus
  | abandoned : ResponseStatus
  | failed : ResponseStatus
deriving DecidableEq

/-- The `caller_eligibility` table as a map over its primary key
`(caller_id, tenant_uuid)`. -/
def Ledger : Type := String → String → Option CallerEligibility

/-- `SurveyDatabase.update_caller_eligibility`: an INSERT OR REPLACE on the
primary key, writing the given record's fields verbatim. One divergence:
the SQL column list omits `created_at`, so on a REPLACE sqlite re-applies
its CURRENT_TIMESTAMP default, while this model keeps the record's value;
no property below depends on `created_at`. -/
def update_caller_eligibility (db : Ledger) (e : CallerEligibility) : Ledger :=
  fun c t => if c = e.caller_id ∧ t = e.tenant_uuid then some e else db c t

/-- Python f-string interpolation of a value that may be `None`. -/
def pyStrOpt (s : Option String) : String :=
  match s with
  | some r => r
  | none => "None"

/-! ## Eligibility Evaluator (`SurveyService.is_caller_eligible`) -/

/-- The local `cooldown_hours = 24  # Default cooldown` of services.py:66. -/
def defaultCooldownHours : Int := 24

/-- The local `max_surveys = 10  # Default limit` of services.py:71. -/
def defaultMaxSurveys : Int := 10

/-- The cooldown test of services.py lines 65-68:
`last_surveyed > utcnow() - timedelta(hours=24)` when a last-surveyed
timestamp is present. -/
def cooldownActive (e : CallerEligibility) (now : Int) : Bool :=
  match e.last_surveyed with
  | some ts => decide (now - defaultCooldownHours * 3600 < ts)
  | none => false

/-- `SurveyService.is_caller_eligible`. The `instance_id` argument is
accepted but never consulted, exactly as in the source (the cooldown is the
hard-coded 24-hour default, not the instance's `cooldown_hours`). -/
def is_caller_eligible (db : Ledger) (caller_id tenant_uuid instance_id : String)
    (now : Int) : Bool × String :=
  match db caller_id tenant_uuid with
  | none => (true, "New caller")
  | some e =>
    if e.is_blacklisted then (false, "Blacklisted: " ++ pyStrOpt e.blacklist_reason)
    else if cooldownActive e now then (false, "Still in cooldown period")
    else if defaultMaxSurveys ≤ e.survey_count then (false, "Maximum survey count reached")
    else (true, "Eligible")

/-! ## Sampling Selector (`SurveyService.should_sample_caller`) -/

/-- `int(hashlib.md5(caller_id.encode()).hexdigest(), 16) % 100 < sampling_percentage`. -/
def should_sample_caller (caller_id : String) (sampling_percentage : Rat) : Bool :=
  decide (((md5Int caller_id % 100 : Nat) : Rat) < sampling_percentage)

/-- API endpoint `check_sampling_eligibility` (api.py lines 234-251): a
missing or empty `caller_id` is rejected with a 400 error before the
sampling service runs. -/
def check_sampling_eligibility (caller_id : Option String) (sampling_percentage : Rat) :
    Except String Bool :=
  match caller_id with
  | none => Except.error "Missing caller_id"
  | some s =>
    if s = "" then Except.error "Missing caller_id"
    else Except.ok (should_sample_caller s sampling_percentage)

/-! ## Eligibility Ledger Updater (`SurveyService.process_survey_response`) -/

/-- The ledger update of `SurveyService.process_survey_response`
(services.py lines 107-122): create the caller's row with count 1, or
increment the existing row, stamping `last_surveyed` (and for a fresh row
`created_at`/`updated_at`) with the current time. -/
def record_completion (db : Ledger) (caller_id tenant_uuid : String) (now : Int) : Ledger :=
  match db caller_id tenant_uuid with
  | none =>
    update_caller_eligibility db
      { caller_id := caller_id, tenant_uuid := tenant_uuid, last_surveyed := some now,
        survey_count := 1, is_blacklisted := false, blacklist_reason := none,
        created_at := now, updated_at := now }
  | some e =>
    update_caller_eligibility db
      { e with survey_count := e.survey_count + 1, last_surveyed := some now,
               updated_at := now }

/-- `SurveyService.process_survey_response`, restricted to its effect on the
eligibility ledger: the update is guarded only by the truthiness of
`response.caller_id` (`if response.caller_id:`), never by the response
status. -/
def process_survey_response (caller_id : Option String) (tenant_uuid : String)
    (status : ResponseStatus) (db : Ledger) (now : Int) : Ledger :=
  match caller_id with
  | none => db
  | some s => if s = "" then db else record_completion db s tenant_uuid now

/-- The survey count stored for a caller, `0` when no row exists. -/
def surveyCountD (db : Ledger) (c t : String) : Int :=
  match db c t with
  | none => 0
  | some e => e.survey_count

/-! ## Alert Rule Engine (`AlertService.check_alert_conditions`) -/

/-- The fields of `SurveyResponse` read by the alert engine. -/
structure SurveyResponseM where
  response_id : String
  caller_id : Option String
  agent_id : Option String
  responses : List (String × Json)
  text_comments : Option String

structure AlertMsg where
  atype : String
  message : String
  priority : String
  response_id : String
  caller_id : Option String
  agent_id : Option String
deriving DecidableEq

/-- `isinstance(x, (int, float))`. In Python `bool` is a subclass of `int`,
so boolean values pass this check. -/
def isNumberPy : Json → Bool
  | .int _ => true
  | .bool _ => true
  | _ => false

/-- The integer a value compares as (`True == 1`, `False == 0`); only
meaningful under `isNumberPy`. -/
def numValue : Json → Int
  | .int n => n
  | .bool b => if b then 1 else 0
  | _ => 0

/-- Python `str(x)` for the scalar values that can reach an alert f-string
(only values passing `isNumberPy` ever do; containers are not modelled). -/
def pyStr : Json → String
  | .int n => toString n
  | .bool true => "True"
  | .bool false => "False"
  | .str s => s
  | .null => "None"
  | .arr _ => ""
  | .obj _ => ""

def complaintKeywords : List String :=
  ["terrible", "awful", "horrible", "worst", "hate", "angry", "frustrated"]

/-- Python substring test `pat in hay`. -/
def containsSub (hay pat : List Char) : Bool :=
  match hay with
  | [] => pat.isEmpty
  | _ :: rest => pat.isPrefixOf hay || containsSub rest pat

/-- Python `str.lower()` (the keyword list is ASCII, where `Char.toLower`
coincides with Python's lowercasing). -/
def lowerStr (s : String) : List Char := s.data.map Char.toLower

/-- The score-based alerts of `AlertService.check_alert_conditions`
(services.py lines 304-327). -/
def scoreAlerts (r : SurveyResponseM) : List AlertMsg :=
  match r.responses.lookup "score" with
  | none => []
  | some score =>
    (if isNumberPy score && decide (numValue score ≤ 6) then
       [{ atype := "nps_detractor",
          message := "Low NPS score detected: " ++ pyStr score, priority := "high",
          response_id := r.response_id, caller_id := r.caller_id, agent_id := r.agent_id }]
     else []) ++
    (if isNumberPy score && decide (numValue score ≤ 2) then
       [{ atype := "csat_detractor",
          message := "Low CSAT score detected: " ++ pyStr score, priority := "high",
          response_id := r.response_id, caller_id := r.caller_id, agent_id := r.agent_id }]
     else [])

/-- The keyword-based alert of `AlertService.check_alert_conditions`
(services.py lines 329-340); `if response.text_comments:` makes an absent or
empty comment falsy. -/
def commentAlerts (r : SurveyResponseM) : List AlertMsg :=
  match r.text_comments with
  | none => []
  | some t =>
    if t = "" then []
    else if complaintKeywords.any (fun kw => containsSub (lowerStr t) kw.data) then
      [{ atype := "complaint_detected",
         message := "Complaint keywords detected in comments", priority := "medium",
         response_id := r.response_id, caller_id := r.caller_id, agent_id := r.agent_id }]
    else []

/-- `AlertService.check_alert_conditions`: the `alerts` list is built by
appending the keyword-based alert after the score-based ones. -/
def check_alert_conditions (r : SurveyResponseM) : List AlertMsg :=
  scoreAlerts r ++ commentAlerts r

/-! ## Webhook Signer/Verifier (`WebhookService`) -/

/-- `WebhookService.sign_webhook_payload`:
`"sha256=" + hmac.new(secret.encode(), json.dumps(payload, sort_keys=True).encode(), hashlib.sha256).hexdigest()`. -/
def sign_webhook_payload (payload : Json) (secret : String) : String :=
  "sha256=" ++ hexOfBytes (hmacSha256 (utf8Encode secret) (utf8Encode (dumps payload)))

/-- Whether a Python `str` is ASCII-only (CPython's `PyUnicode_IS_ASCII`). -/
def isAsciiStr (s : String) : Bool := s.data.all (fun c => decide (c.toNat < 128))

/-- Python `hmac.compare_digest` on `str` arguments: a timing-safe equality
test that accepts only ASCII strings — when either argument contains a
non-ASCII character it raises `TypeError` ("comparing strings with
non-ASCII characters is not supported"), modelled as `none`. -/
def compare_digest (a b : String) : Option Bool :=
  if isAsciiStr a && isAsciiStr b then some (a == b) else none

/-- `WebhookService.verify_webhook_signature`. The source has no exception
handler, so both a `json.loads` decode error and a `compare_digest`
`TypeError` propagate to the caller; a raised exception is modelled as
`none`. -/
def verify_webhook_signature (payload signature secret : String) : Option Bool :=
  match loads payload with
  | none => none
  | some d => compare_digest signature (sign_webhook_payload d secret)

/-! ## Analytics Aggregator (modelled) -/

inductive NpsBucket where
  | promoter : NpsBucket
  | passive : NpsBucket
  | detractor : NpsBucket
deriving DecidableEq

/-- Modelled from the spec: the repository stores and reads back
`survey_analytics` rows (`SurveyDatabase.get_survey_analytics`) but contains
no routine computing them from responses; §4.7 defines the NPS
classification: promoter ≥ 9, passive 7-8, detractor ≤ 6. -/
def npsBucket (score : Int) : NpsBucket :=
  if 9 ≤ score then NpsBucket.promoter
  else if 7 ≤ score then NpsBucket.passive
  else NpsBucket.detractor

structure NpsCounts where
  promoter_count : Int
  passive_count : Int
  detractor_count : Int
  total_responses : Int
deriving DecidableEq

/-- Modelled from the spec: fold of a response stream into NPS bucket counts;
per §4.7 only completed responses contribute. -/
def aggregateNps (rs : List (ResponseStatus × Int)) : NpsCounts :=
  rs.foldl
    (fun acc r =>
      match r with
      | (ResponseStatus.completed, s) =>
        { acc with
          total_responses := acc.total_responses + 1,
          promoter_count :=
            acc.promoter_count + (if npsBucket s = NpsBucket.promoter then 1 else 0),
          passive_count :=
            acc.passive_count + (if npsBucket s = NpsBucket.passive then 1 else 0),
          detractor_count :=
            acc.detractor_count + (if npsBucket s = NpsBucket.detractor then 1 else 0) }
      | _ => acc)
    ⟨0, 0, 0, 0⟩

/-! ## Well-formed ledgers

In the sqlite table the key columns of a row coincide with the primary key
under which it is stored; `WfLedger` states this for the embedded map. -/

def WfLedger (db : Ledger) : Prop :=
  ∀ c t e, db c t = some e → e.caller_id = c ∧ e.tenant_uuid = t

theorem wfLedger_empty : WfLedger (fun _ _ => none) := by
  intro c t e h
  simp at h

theorem wfLedger_record_completion (db : Ledger) (c t : String) (now : Int)
    (h : WfLedger db) : WfLedger (record_completion db c t now) := by
  intro c2 t2 e2 h2
  unfold record_completion update_caller_eligibility at h2
  cases hdb : db c t with
  | none =>
    rw [hdb] at h2
    by_cases hk : c2 = c ∧ t2 = t
    · simp [hk] at h2
      subst h2
      exact ⟨hk.1.symm, hk.2.symm⟩
    · simp [hk] at h2
      exact h c2 t2 e2 h2
  | some e =>
    rw [hdb] at h2
    obtain ⟨hc, ht⟩ := h c t e hdb
    by_cases hk : c2 = e.caller_id ∧ t2 = e.tenant_uuid
    · simp [hk] at h2
      subst h2
      simp [hk.1, hk.2, hc, ht]
    · simp [hk] at h2
      exact h c2 t2 e2 h2

theorem record_completion_lookup (db : Ledger) (c t : String) (now : Int)
    (hwf : WfLedger db) :
    (record_completion db c t now) c t =
      some (match db c t with
            | none =>
              { caller_id := c, tenant_uuid := t, last_surveyed := some now,
                survey_count := 1, is_blacklisted := false, blacklist_reason := none,
                created_at := now, updated_at := now }
            | some e =>
              { e with survey_count := e.survey_count + 1, last_surveyed := some now,
                       updated_at := now }) := by
  unfold record_completion update_caller_eligibility
  cases hdb : db c t with
  | none => simp
  | some e =>
    obtain ⟨hc, ht⟩ := hwf c t e hdb
    simp [hc, ht]

theorem record_completion_count (db : Ledger) (c t : String) (now : Int)
    (hwf : WfLedger db) :
    surveyCountD (record_completion db c t now) c t = surveyCountD db c t + 1 := by
  unfold surveyCountD
  rw [record_completion_lookup db c t now hwf]
  cases hdb : db c t <;> simp

/-- C1: for every ledger state, `is_caller_eligible` applies the eligibility
rules in fixed order with the first matching rule winning: no row for the
caller yields eligible "New caller"; otherwise a blacklisted row yields
ineligible with the blacklist reason (regardless of cooldown or count);
otherwise a `last_surveyed` inside the 24h window yields the cooldown
refusal; otherwise `survey_count >= 10` yields the cap refusal; otherwise
eligible. The function is a pure read of the ledger (its type returns no
updated ledger). -/
theorem c1_eligibility_rule_order :
    (∀ (db : Ledger) (c t i : String) (now : Int),
       db c t = none → is_caller_eligible db c t i now = (true, "New caller"))
  ∧ (∀ (db : Ledger) (c t i : String) (now : Int) (e : CallerEligibility),
       db c t = some e → e.is_blacklisted = true →
       is_caller_eligible db c t i now =
         (false, "Blacklisted: " ++ pyStrOpt e.blacklist_reason))
  ∧ (∀ (db : Ledger) (c t i : String) (now : Int) (e : CallerEligibility) (ts : Int),
       db c t = some e → e.is_blacklisted = false →
       e.last_surveyed = some ts → now - ts < defaultCooldownHours * 3600 →
       is_caller_eligible db c t i now = (false, "Still in cooldown period"))
  ∧ (∀ (db : Ledger) (c t i : String) (now : Int) (e : CallerEligibility),
       db c t = some e → e.is_blacklisted = false → cooldownActive e now = false →
       defaultMaxSurveys ≤ e.survey_count →
       is_caller_eligible db c t i now = (false, "Maximum survey count reached"))
  ∧ (∀ (db : Ledger) (c t i : String) (now : Int) (e : CallerEligibility),
       db c t = some e → e.is_blacklisted = false → cooldownActive e now = false →
       e.survey_count < defaultMaxSurveys →
       is_caller_eligible db c t i now = (true, "Eligible")) := by
  refine ⟨?_, ?_, ?_, ?_, ?_⟩
  · intro db c t i now h
    simp [is_caller_eligible, h]
  · intro db c t i now e hdb hbl
    simp [is_caller_eligible, hdb, hbl]
  · intro db c t i now e ts hdb hbl hts hwin
    have hcool : cooldownActive e now = true := by
      simp [cooldownActive, hts]
      omega
    simp [is_caller_eligible, hdb, hbl, hcool]
  · intro db c t i now e hdb hbl hcool hcap
    simp [is_caller_eligible, hdb, hbl, hcool, hcap]
  · intro db c t i now e hdb hbl hcool hcap
    have : ¬ (defaultMaxSurveys ≤ e.survey_count) := by omega
    simp [is_caller_eligible, hdb, hbl, hcool, this]

theorem c1_eligibility_rule_order_witness :
    is_caller_eligible (fun _ _ => none) "555" "t1" "inst" 1000000 = (true, "New caller")
  ∧ is_caller_eligible
      (fun _ _ => some ⟨"555", "t1", some 999900, 20, true, some "abuse", 0, 0⟩)
      "555" "t1" "inst" 1000000 = (false, "Blacklisted: " ++ pyStrOpt (some "abuse"))
  ∧ is_caller_eligible
      (fun _ _ => some ⟨"555", "t1", some 999900, 3, false, none, 0, 0⟩)
      "555" "t1" "inst" 1000000 = (false, "Still in cooldown period")
  ∧ is_caller_eligible
      (fun _ _ => some ⟨"555", "t1", none, 10, false, none, 0, 0⟩)
      "555" "t1" "inst" 1000000 = (false, "Maximum survey count reached")
  ∧ is_caller_eligible
      (fun _ _ => some ⟨"555", "t1", none, 3, false, none, 0, 0⟩)
      "555" "t1" "inst" 1000000 = (true, "Eligible") :=
  ⟨c1_eligibility_rule_order.1 _ "555" "t1" "inst" 1000000 rfl,
   c1_eligibility_rule_order.2.1 _ "555" "t1" "inst" 1000000 _ rfl rfl,
   c1_eligibility_rule_order.2.2.1 _ "555" "t1" "inst" 1000000 _ 999900 rfl rfl rfl
     (by decide),
   c1_eligibility_rule_order.2.2.2.1 _ "555" "t1" "inst" 1000000 _ rfl rfl rfl
     (by decide),
   c1_eligibility_rule_order.2.2.2.2 _ "555" "t1" "inst" 1000000 _ rfl rfl rfl
     (by decide)⟩

def c5Instance : SurveyInstance :=
  { instance_id := "inst-short", template_id := "tpl-1", cooldown_hours := 1 }

def c5Now : Int := 1000000

def c5Db : Ledger := fun c t =>
  if c = "556" ∧ t = "t1" then
    some { caller_id := "556", tenant_uuid := "t1", last_surveyed := some (c5Now - 7200),
           survey_count := 0, is_blacklisted := false, blacklist_reason := none,
           created_at := 0, updated_at := 0 }
  else none

/-- C5 is a code bug: the claim says the cooldown duration is sourced from
the instance's `cooldown_hours` (24 only as a default), but services.py
hard-codes `cooldown_hours = 24` and never consults the instance. A caller
last surveyed 2 hours ago is refused for cooldown even though the referenced
instance configures a 1-hour cooldown (2h ≥ 1h, so the claim expects
eligible); moreover the result is independent of the instance id argument
altogether. -/
theorem c5_cooldown_ignores_instance :
    is_caller_eligible c5Db "556" "t1" c5Instance.instance_id c5Now =
      (false, "Still in cooldown period")
  ∧ c5Instance.cooldown_hours * 3600 ≤ c5Now - (c5Now - 7200)
  ∧ (∀ (db : Ledger) (c t i1 i2 : String) (now : Int),
       is_caller_eligible db c t i1 now = is_caller_eligible db c t i2 now) := by
  refine ⟨by decide, by decide, ?_⟩
  intro db c t i1 i2 now
  rfl

/-- C6: recording a completed survey creates the caller's ledger row with
`survey_count = 1` and `last_surveyed = now` when no row exists; otherwise it
increments `survey_count` by exactly 1, sets `last_surveyed = now` and stamps
`updated_at`; consequently N sequential completions add exactly N to the
stored count. -/
theorem c6_record_completion_spec :
    (∀ (db : Ledger) (c t : String) (now : Int),
       db c t = none →
       (record_completion db c t now) c t =
         some { caller_id := c, tenant_uuid := t, last_surveyed := some now,
                survey_count := 1, is_blacklisted := false, blacklist_reason := none,
                created_at := now, updated_at := now })
  ∧ (∀ (db : Ledger) (c t : String) (now : Int) (e : CallerEligibility),
       db c t = some e → e.caller_id = c → e.tenant_uuid = t →
       (record_completion db c t now) c t =
         some { e with survey_count := e.survey_count + 1, last_surveyed := some now,
                       updated_at := now })
  ∧ (∀ (db : Ledger) (c t : String) (ts : Nat → Int) (N : Nat),
       WfLedger db →
       surveyCountD
           ((List.range N).foldl (fun acc k => record_completion acc c t (ts k)) db) c t
         = surveyCountD db c t + N) := by
  refine ⟨?_, ?_, ?_⟩
  · intro db c t now h
    simp [record_completion, h, update_caller_eligibility]
  · intro db c t now e hdb hc ht
    simp [record_completion, hdb, update_caller_eligibility, hc, ht]
  · intro db c t ts N hwf
    induction N generalizing db with
    | zero => simp
    | succ n ih =>
      rw [List.range_succ, List.foldl_append]
      have hwf2 : WfLedger
          ((List.range n).foldl (fun acc k => record_completion acc c t (ts k)) db) := by
        clear ih
        induction n generalizing db with
        | zero => simpa using hwf
        | succ m ihm =>
          rw [List.range_succ, List.foldl_append]
          exact wfLedger_record_completion _ c t (ts m) (ihm db hwf)
      simp only [List.foldl_cons, List.foldl_nil]
      rw [record_completion_count _ c t (ts n) hwf2, ih db hwf]
      push_cast
      ring

theorem c6_record_completion_spec_witness :
    (record_completion (fun _ _ => none) "557" "t1" 50) "557" "t1" =
      some { caller_id := "557", tenant_uuid := "t1", last_surveyed := some 50,
             survey_count := 1, is_blacklisted := false, blacklist_reason := none,
             created_at := 50, updated_at := 50 }
  ∧ (record_completion
       (fun _ _ => some ⟨"557", "t1", some 10, 4, true, some "spam", 1, 2⟩)
       "557" "t1" 60) "557" "t1" =
      some { caller_id := "557", tenant_uuid := "t1", last_surveyed := some 60,
             survey_count := 4 + 1, is_blacklisted := true, blacklist_reason := some "spam",
             created_at := 1, updated_at := 60 }
  ∧ surveyCountD
        ((List.range 3).foldl
          (fun acc k => record_completion acc "557" "t1" (100 * (k : Int)))
          (fun _ _ => none)) "557" "t1"
      = surveyCountD (fun _ _ => none) "557" "t1" + (3 : Nat) :=
  ⟨c6_record_completion_spec.1 _ "557" "t1" 50 rfl,
   c6_record_completion_spec.2.1 _ "557" "t1" 60 _ rfl rfl rfl,
   c6_record_completion_spec.2.2 _ "557" "t1" (fun k => 100 * (k : Int)) 3 wfLedger_empty⟩

/-- C8: the core-mutating operation (`process_survey_response`, whose ledger
write goes through `SurveyDatabase.update_caller_eligibility`) never
decreases any caller's stored survey count and never clears an existing
row's `is_blacklisted` flag or `blacklist_reason` — in particular the update
performed when a blacklisted caller's response is processed carries both
through unchanged. -/
theorem c8_ledger_invariants :
    ∀ (caller : Option String) (tenant : String) (status : ResponseStatus)
      (db : Ledger) (now : Int) (c t : String),
      WfLedger db →
      surveyCountD db c t ≤
          surveyCountD (process_survey_response caller tenant status db now) c t
      ∧ (∀ e, db c t = some e →
           ∃ e2, (process_survey_response caller tenant status db now) c t = some e2
             ∧ e2.is_blacklisted = e.is_blacklisted
             ∧ e2.blacklist_reason = e.blacklist_reason
             ∧ e.survey_count ≤ e2.survey_count) := by
  intro caller tenant status db now c t hwf
  match caller with
  | none => exact ⟨le_refl _, fun e h => ⟨e, h, rfl, rfl, le_refl _⟩⟩
  | some s =>
    by_cases hs : s = ""
    · simp only [process_survey_response, hs, if_pos rfl]
      exact ⟨le_refl _, fun e h => ⟨e, h, rfl, rfl, le_refl _⟩⟩
    · simp only [process_survey_response, if_neg hs]
      by_cases hk : c = s ∧ t = tenant
      · obtain ⟨rfl, rfl⟩ := hk
        constructor
        · rw [record_completion_count db c t now hwf]
          omega
        · intro e hdb
          have hlook := record_completion_lookup db c t now hwf
          rw [hdb] at hlook
          exact ⟨_, hlook, rfl, rfl,
            by show e.survey_count ≤ e.survey_count + 1; omega⟩
      · have hside : (record_completion db s tenant now) c t = db c t := by
          unfold record_completion update_caller_eligibility
          cases hdb : db s tenant with
          | none =>
            simp only
            rw [if_neg]
            intro ⟨h1, h2⟩
            exact hk ⟨h1, h2⟩
          | some e =>
            obtain ⟨hc, ht⟩ := hwf s tenant e hdb
            simp only
            rw [if_neg]
            intro ⟨h1, h2⟩
            rw [hc] at h1
            rw [ht] at h2
            exact hk ⟨h1, h2⟩
        have hcnt : surveyCountD (record_completion db s tenant now) c t =
            surveyCountD db c t := by
          unfold surveyCountD
          rw [hside]
        rw [hcnt]
        exact ⟨le_refl _, fun e h => ⟨e, by rw [hside]; exact h, rfl, rfl, le_refl _⟩⟩

theorem c8_ledger_invariants_witness :
    surveyCountD c5Db "556" "t1" ≤
        surveyCountD
          (process_survey_response (some "556") "t1" ResponseStatus.abandoned c5Db 99) "556" "t1"
  ∧ (∀ e, c5Db "556" "t1" = some e →
       ∃ e2, (process_survey_response (some "556") "t1" ResponseStatus.abandoned c5Db 99)
               "556" "t1" = some e2
         ∧ e2.is_blacklisted = e.is_blacklisted
         ∧ e2.blacklist_reason = e.blacklist_reason
         ∧ e.survey_count ≤ e2.survey_count) :=
  c8_ledger_invariants (some "556") "t1" ResponseStatus.abandoned c5Db 99 "556" "t1"
    (by
      intro c t e h
      unfold c5Db at h
      by_cases hk : c = "556" ∧ t = "t1"
      · simp [hk] at h
        subst h
        exact ⟨hk.1.symm, hk.2.symm⟩
      · simp [hk] at h)

/-- C10 (implicit behavior): `process_survey_response` updates the caller
eligibility ledger for every response whose `caller_id` is present and
non-empty, regardless of the response status — pending, abandoned and failed
responses advance the cooldown clock and consume survey-count quota exactly
as completed ones do — while a response with no (or an empty) `caller_id`
leaves the ledger unchanged. -/
theorem c10_ledger_update_ignores_status :
    (∀ (caller : Option String) (tenant : String) (s1 s2 : ResponseStatus)
       (db : Ledger) (now : Int),
       process_survey_response caller tenant s1 db now =
         process_survey_response caller tenant s2 db now)
  ∧ (∀ (s tenant : String) (status : ResponseStatus) (db : Ledger) (now : Int),
       s ≠ "" → WfLedger db →
       process_survey_response (some s) tenant status db now =
           record_completion db s tenant now
       ∧ ∃ e2, (process_survey_response (some s) tenant status db now) s tenant = some e2
           ∧ e2.last_surveyed = some now
           ∧ e2.survey_count = surveyCountD db s tenant + 1)
  ∧ (∀ (tenant : String) (status : ResponseStatus) (db : Ledger) (now : Int),
       process_survey_response none tenant status db now = db
       ∧ process_survey_response (some "") tenant status db now = db) := by
  refine ⟨?_, ?_, ?_⟩
  · intro caller tenant s1 s2 db now
    rfl
  · intro s tenant status db now hs hwf
    refine ⟨by simp [process_survey_response, hs], ?_⟩
    simp only [process_survey_response, if_neg hs]
    rw [record_completion_lookup db s tenant now hwf]
    cases hdb : db s tenant with
    | none => exact ⟨_, rfl, rfl, by simp [surveyCountD, hdb]⟩
    | some e => exact ⟨_, rfl, rfl, by simp [surveyCountD, hdb]⟩
  · intro tenant status db now
    exact ⟨rfl, by simp [process_survey_response]⟩

theorem c10_ledger_update_ignores_status_witness :
    ("559" : String) ≠ ""
  ∧ (process_survey_response (some "559") "t1" ResponseStatus.pending (fun _ _ => none) 70 =
       record_completion (fun _ _ => none) "559" "t1" 70
     ∧ ∃ e2, (process_survey_response (some "559") "t1" ResponseStatus.pending
                (fun _ _ => none) 70) "559" "t1" = some e2
         ∧ e2.last_surveyed = some 70
         ∧ e2.survey_count = surveyCountD (fun _ _ => none) "559" "t1" + 1) :=
  ⟨by decide,
   c10_ledger_update_ignores_status.2.1 "559" "t1" ResponseStatus.pending
     (fun _ _ => none) 70 (by decide) wfLedger_empty⟩

/-- C7: the sampling decision satisfies the edge-case contract: for every
caller identifier a percentage ≤ 0 never samples and a percentage ≥ 100
always samples (`hash % 100` lies in `[0, 100)`); and the exposed sampling
operation rejects a missing or empty caller identifier with an invalid-input
error instead of returning a decision. -/
theorem c7_sampling_edge_cases :
    (∀ (id : String) (p : Rat), p ≤ 0 → should_sample_caller id p = false)
  ∧ (∀ (id : String) (p : Rat), 100 ≤ p → should_sample_caller id p = true)
  ∧ (∀ p : Rat, check_sampling_eligibility none p = Except.error "Missing caller_id")
  ∧ (∀ p : Rat,
       check_sampling_eligibility (some "") p = Except.error "Missing caller_id") := by
  refine ⟨?_, ?_, ?_, ?_⟩
  · intro id p hp
    unfold should_sample_caller
    apply decide_eq_false
    intro hlt
    have h0 : (0 : Rat) ≤ ((md5Int id % 100 : Nat) : Rat) := Nat.cast_nonneg _
    linarith
  · intro id p hp
    unfold should_sample_caller
    apply decide_eq_true
    have hlt : md5Int id % 100 < 100 := Nat.mod_lt _ (by norm_num)
    have hcast : ((md5Int id % 100 : Nat) : Rat) < 100 := by exact_mod_cast hlt
    linarith
  · intro p
    rfl
  · intro p
    rfl

theorem c7_sampling_edge_cases_witness :
    ((0 : Rat) ≤ 0 ∧ should_sample_caller "15551234567" 0 = false)
  ∧ ((100 : Rat) ≤ 100 ∧ should_sample_caller "15551234567" 100 = true) :=
  ⟨⟨le_refl 0, c7_sampling_edge_cases.1 "15551234567" 0 (le_refl 0)⟩,
   ⟨le_refl 100, c7_sampling_edge_cases.2.1 "15551234567" 100 (le_refl 100)⟩⟩

def c2BoolResponse : SurveyResponseM :=
  { response_id := "r-bool", caller_id := some "558", agent_id := some "agent-7",
    responses := [("score", Json.bool true)], text_comments := none }

/-- C2 counterexample: the claim states that no alert is produced for a
non-numeric score field, but a boolean score — a distinct, non-numeric value
kind in the response model — fires both detractor alerts, because Python's
`isinstance(score, (int, float))` accepts `bool` (a subclass of `int`) and
`True` compares as `1`. -/
theorem c2_counterexample_bool_score :
    check_alert_conditions c2BoolResponse =
      [{ atype := "nps_detractor", message := "Low NPS score detected: True",
         priority := "high", response_id := "r-bool", caller_id := some "558",
         agent_id := some "agent-7" },
       { atype := "csat_detractor", message := "Low CSAT score detected: True",
         priority := "high", response_id := "r-bool", caller_id := some "558",
         agent_id := some "agent-7" }] := by rfl

/-- C2 (amended): for a response whose answer map holds score 5 and no
comment, exactly one alert is produced — `nps_detractor` with high severity
(`csat_detractor` does not fire since 5 > 2); score 1 produces both
detractor alerts; the returned list always places score-based alerts before
the keyword-based alert; no alert is produced for an absent score or for a
score that is a string, null, list or object — however a boolean score is
treated as the number 1 or 0 (Python `bool` subclasses `int`) and fires both
detractor alerts — and no complaint alert is produced for an empty or
absent comment. -/
theorem c2_alert_rules :
    (∀ r : SurveyResponseM,
       r.responses = [("score", Json.int 5)] → r.text_comments = none →
       check_alert_conditions r =
         [{ atype := "nps_detractor", message := "Low NPS score detected: 5",
            priority := "high", response_id := r.response_id,
            caller_id := r.caller_id, agent_id := r.agent_id }])
  ∧ (∀ r : SurveyResponseM,
       r.responses = [("score", Json.int 1)] → r.text_comments = none →
       check_alert_conditions r =
         [{ atype := "nps_detractor", message := "Low NPS score detected: 1",
            priority := "high", response_id := r.response_id,
            caller_id := r.caller_id, agent_id := r.agent_id },
          { atype := "csat_detractor", message := "Low CSAT score detected: 1",
            priority := "high", response_id := r.response_id,
            caller_id := r.caller_id, agent_id := r.agent_id }])
  ∧ (∀ r : SurveyResponseM,
       check_alert_conditions r = scoreAlerts r ++ commentAlerts r
       ∧ (∀ a ∈ scoreAlerts r, a.atype = "nps_detractor" ∨ a.atype = "csat_detractor")
       ∧ (∀ a ∈ commentAlerts r, a.atype = "complaint_detected"))
  ∧ (∀ r : SurveyResponseM, r.responses.lookup "score" = none → scoreAlerts r = [])
  ∧ (∀ (r : SurveyResponseM) (v : Json),
       r.responses.lookup "score" = some v → isNumberPy v = false → scoreAlerts r = [])
  ∧ (∀ (r : SurveyResponseM) (b : Bool),
       r.responses.lookup "score" = some (Json.bool b) →
       scoreAlerts r =
         [{ atype := "nps_detractor",
            message := "Low NPS score detected: " ++ pyStr (Json.bool b),
            priority := "high", response_id := r.response_id,
            caller_id := r.caller_id, agent_id := r.agent_id },
          { atype := "csat_detractor",
            message := "Low CSAT score detected: " ++ pyStr (Json.bool b),
            priority := "high", response_id := r.response_id,
            caller_id := r.caller_id, agent_id := r.agent_id }])
  ∧ (∀ r : SurveyResponseM,
       r.text_comments = none ∨ r.text_comments = some "" → commentAlerts r = []) := by
  refine ⟨?_, ?_, ?_, ?_, ?_, ?_, ?_⟩
  · intro r h1 h2
    simp [check_alert_conditions, scoreAlerts, commentAlerts, h1, h2, List.lookup,
          isNumberPy, numValue, pyStr]
    decide
  · intro r h1 h2
    simp [check_alert_conditions, scoreAlerts, commentAlerts, h1, h2, List.lookup,
          isNumberPy, numValue, pyStr]
    decide
  · intro r
    refine ⟨rfl, ?_, ?_⟩
    · intro a ha
      unfold scoreAlerts at ha
      rcases hl : r.responses.lookup "score" with _ | v <;> rw [hl] at ha
      · simp at ha
      · rcases List.mem_append.1 ha with hm | hm
        · split at hm
          · simp at hm
            simp [hm]
          · simp at hm
        · split at hm
          · simp at hm
            simp [hm]
          · simp at hm
    · intro a ha
      unfold commentAlerts at ha
      rcases hc : r.text_comments with _ | t <;> rw [hc] at ha
      · simp at ha
      · have ha2 : a ∈ (if t = "" then ([] : List AlertMsg)
            else if complaintKeywords.any (fun kw => containsSub (lowerStr t) kw.data) then
              [{ atype := "complaint_detected",
                 message := "Complaint keywords detected in comments", priority := "medium",
                 response_id := r.response_id, caller_id := r.caller_id,
                 agent_id := r.agent_id }]
            else []) := ha
        by_cases ht : t = ""
        · rw [if_pos ht] at ha2
          simp at ha2
        · rw [if_neg ht] at ha2
          by_cases hkw :
              complaintKeywords.any (fun kw => containsSub (lowerStr t) kw.data) = true
          · rw [if_pos hkw] at ha2
            simp at ha2
            rw [ha2]
          · rw [if_neg hkw] at ha2
            simp at ha2
  · intro r h
    simp [scoreAlerts, h]
  · intro r v hv hnum
    simp [scoreAlerts, hv, hnum]
  · intro r b hb
    cases b <;> simp [scoreAlerts, hb, isNumberPy, numValue, pyStr]
  · intro r h
    rcases h with h | h <;> simp [commentAlerts, h]

theorem c2_alert_rules_witness :
    check_alert_conditions
        { response_id := "r5", caller_id := some "560", agent_id := none,
          responses := [("score", Json.int 5)], text_comments := none } =
      [{ atype := "nps_detractor", message := "Low NPS score detected: 5",
         priority := "high", response_id := "r5", caller_id := some "560",
         agent_id := none }]
  ∧ check_alert_conditions
        { response_id := "r1", caller_id := none, agent_id := none,
          responses := [("score", Json.int 1)], text_comments := none } =
      [{ atype := "nps_detractor", message := "Low NPS score detected: 1",
         priority := "high", response_id := "r1", caller_id := none, agent_id := none },
       { atype := "csat_detractor", message := "Low CSAT score detected: 1",
         priority := "high", response_id := "r1", caller_id := none, agent_id := none }]
  ∧ scoreAlerts
        { response_id := "rs", caller_id := none, agent_id := none,
          responses := [("score", Json.str "great")], text_comments := none } = []
  ∧ commentAlerts
        { response_id := "rc", caller_id := none, agent_id := none,
          responses := [], text_comments := some "" } = [] :=
  ⟨c2_alert_rules.1 _ rfl rfl,
   c2_alert_rules.2.1 _ rfl rfl,
   c2_alert_rules.2.2.2.2.1 _ (Json.str "great") rfl rfl,
   c2_alert_rules.2.2.2.2.2.2 _ (Or.inr rfl)⟩

theorem sha256_length (m : List Nat) : (sha256 m).length = 32 := by
  simp [sha256, word4BE]

theorem hmacSha256_length (k m : List Nat) : (hmacSha256 k m).length = 32 := by
  simp [hmacSha256, sha256_length]

theorem hexOfBytes_length (bs : List Nat) : (hexOfBytes bs).length = 2 * bs.length := by
  unfold hexOfBytes
  rw [String.length_mk]
  induction bs with
  | nil => rfl
  | cons b rest ih =>
    simp only [List.flatMap_cons, List.length_append, List.length_cons, ih, hexByte]
    simp
    omega

theorem sign_length (d : Json) (secret : String) :
    (sign_webhook_payload d secret).length = 71 := by
  unfold sign_webhook_payload
  rw [String.length_append, hexOfBytes_length, hmacSha256_length]
  rfl

theorem hexDigitChar_hex (n : Nat) (h : n < 16) : isHexChar (hexDigitChar n) = true := by
  interval_cases n <;> rfl

theorem hexByte_all (b : Nat) : (hexByte b).all isHexChar = true := by
  simp only [hexByte, List.all_cons, List.all_nil, Bool.and_true, Bool.and_eq_true]
  exact ⟨hexDigitChar_hex _ (Nat.mod_lt _ (by norm_num)),
         hexDigitChar_hex _ (Nat.mod_lt _ (by norm_num))⟩

theorem hexOfBytes_all (bs : List Nat) : (hexOfBytes bs).data.all isHexChar = true := by
  show (bs.flatMap hexByte).all isHexChar = true
  rw [List.all_eq_true]
  intro c hc
  rcases List.mem_flatMap.1 hc with ⟨b, _, hcb⟩
  have hb := hexByte_all b
  rw [List.all_eq_true] at hb
  exact hb c hcb

theorem serJson_obj (kvs : List (String × Json)) :
    serJson (Json.obj kvs) = '\x7b' :: (serItems (sortItems kvs) ++ ['\x7d']) := by
  simp [serJson]

/-- Two item lists that are permutations of each other with distinct keys
sort identically: the serialization order is canonical. -/
theorem sortItems_perm_eq (kvs kvs2 : List (String × Json)) (hp : kvs.Perm kvs2)
    (hnd : (kvs.map Prod.fst).Nodup) : sortItems kvs = sortItems kvs2 := by
  apply List.Perm.eq_of_sorted
  · intro a b ha hb hab hba
    have ha2 : a ∈ kvs := (List.perm_insertionSort keyLe kvs).subset ha
    have hb2 : b ∈ kvs := hp.symm.subset ((List.perm_insertionSort keyLe kvs2).subset hb)
    have hk : a.1 = b.1 := le_antisymm hab hba
    exact List.inj_on_of_nodup_map hnd ha2 hb2 hk
  · exact List.sorted_insertionSort keyLe kvs
  · exact List.sorted_insertionSort keyLe kvs2
  · exact (List.perm_insertionSort keyLe kvs).trans
      (hp.trans (List.perm_insertionSort keyLe kvs2).symm)

theorem sign_data_cons (d : Json) (secret : String) :
    (sign_webhook_payload d secret).data =
      's' :: 'h' :: 'a' :: '2' :: '5' :: '6' :: '=' ::
        (hexOfBytes (hmacSha256 (utf8Encode secret) (utf8Encode (dumps d)))).data := rfl

theorem hexDigitChar_ascii (n : Nat) (h : n < 16) : (hexDigitChar n).toNat < 128 := by
  interval_cases n <;> decide

theorem hexByte_ascii (b : Nat) :
    (hexByte b).all (fun c => decide (c.toNat < 128)) = true := by
  simp only [hexByte, List.all_cons, List.all_nil, Bool.and_true, Bool.and_eq_true,
             decide_eq_true_eq]
  exact ⟨hexDigitChar_ascii _ (Nat.mod_lt _ (by norm_num)),
         hexDigitChar_ascii _ (Nat.mod_lt _ (by norm_num))⟩

/-- A signature produced by `sign_webhook_payload` is ASCII-only
(`"sha256="` plus lowercase hex), so `compare_digest` never raises on it. -/
theorem sign_ascii (d : Json) (secret : String) :
    isAsciiStr (sign_webhook_payload d secret) = true := by
  unfold isAsciiStr
  rw [sign_data_cons d secret, List.all_eq_true]
  intro c hc
  simp only [List.mem_cons] at hc
  rcases hc with rfl | rfl | rfl | rfl | rfl | rfl | rfl | hc
  any_goals decide
  have hc2 : c ∈ (hmacSha256 (utf8Encode secret) (utf8Encode (dumps d))).flatMap hexByte :=
    hc
  rcases List.mem_flatMap.1 hc2 with ⟨b, _, hcb⟩
  have hb := hexByte_ascii b
  rw [List.all_eq_true] at hb
  exact hb c hcb

/-- The first character's high (eighth) bit flipped, the rest unchanged:
a single-bit mutation of an ASCII string's leading character. -/
def flipHighBitOfFirstChar (s : String) : String :=
  match s.data with
  | [] => ""
  | c :: rest => String.mk (Char.ofNat (c.toNat ^^^ 128) :: rest)

def c3MutSig : String := flipHighBitOfFirstChar (sign_webhook_payload (Json.int 3) "k")

/-- C3 counterexample: a signature differing from the correct one in exactly
one bit — the high bit of its first character, whose code points therefore
differ by XOR 128 while the tail is unchanged — makes `verify` raise
`TypeError` (modelled `none`) instead of returning false, because
`hmac.compare_digest` rejects non-ASCII `str` input. The claim's
"verify returns false for any single-bit mutation of the signature" is
therefore false of the program. -/
theorem c3_counterexample_nonascii_sig :
    c3MutSig.data.tail = (sign_webhook_payload (Json.int 3) "k").data.tail
  ∧ (c3MutSig.data.headD ' ').toNat ^^^
      ((sign_webhook_payload (Json.int 3) "k").data.headD ' ').toNat = 128
  ∧ c3MutSig ≠ sign_webhook_payload (Json.int 3) "k"
  ∧ loads "3" = some (Json.int 3)
  ∧ verify_webhook_signature "3" c3MutSig "k" = none := by
  have hdata := sign_data_cons (Json.int 3) "k"
  have hmut : c3MutSig.data =
      Char.ofNat 243 :: 'h' :: 'a' :: '2' :: '5' :: '6' :: '=' ::
        (hexOfBytes (hmacSha256 (utf8Encode "k") (utf8Encode (dumps (Json.int 3))))).data := by
    unfold c3MutSig flipHighBitOfFirstChar
    rw [hdata]
    rfl
  refine ⟨?_, ?_, ?_, rfl, ?_⟩
  · rw [hmut, hdata]
    rfl
  · rw [hmut, hdata]
    decide
  · intro h
    have h2 := congrArg String.data h
    rw [hmut, hdata] at h2
    simp only [List.cons.injEq] at h2
    exact absurd h2.1 (by decide)
  · have hl : loads "3" = some (Json.int 3) := rfl
    unfold verify_webhook_signature
    rw [hl]
    unfold compare_digest
    have hA : isAsciiStr c3MutSig = false := by
      unfold isAsciiStr
      rw [hmut, List.all_cons]
      rw [show decide ((Char.ofNat 243).toNat < 128) = false from by decide]
      rfl
    rw [hA]
    rfl

/-- C3 (amended): verifying any payload string against the signature `sign`
produced for its parsed dictionary under the same secret yields true
(round-trip); `sign` always produces the fixed textual form
`"sha256=" ++ hex` with a 64-character lowercase hex digest; the
serialization signed is canonical — permuting the payload dictionary's
(distinct-keyed) items does not change the signature; verification yields
false for any ASCII signature other than the correct one — in particular
for any single-bit mutation within a character's low seven bits, which
keeps the string ASCII — while a signature containing a non-ASCII
character (e.g. a bit-7 flip of a correct-signature character) makes
`hmac.compare_digest` raise `TypeError` rather than return false. -/
theorem c3_sign_verify_roundtrip :
    (∀ (s : String) (d : Json) (secret : String),
       loads s = some d →
       verify_webhook_signature s (sign_webhook_payload d secret) secret = some true)
  ∧ (∀ (d : Json) (secret : String),
       ∃ hex : String, sign_webhook_payload d secret = "sha256=" ++ hex
         ∧ hex.length = 64 ∧ hex.data.all isHexChar = true)
  ∧ (∀ (kvs kvs2 : List (String × Json)) (secret : String),
       kvs.Perm kvs2 → (kvs.map Prod.fst).Nodup →
       sign_webhook_payload (Json.obj kvs) secret =
         sign_webhook_payload (Json.obj kvs2) secret)
  ∧ (∀ (s : String) (d : Json) (secret sig : String),
       loads s = some d → isAsciiStr sig = true →
       sig ≠ sign_webhook_payload d secret →
       verify_webhook_signature s sig secret = some false)
  ∧ (∀ (s : String) (d : Json) (secret sig : String),
       loads s = some d → isAsciiStr sig = false →
       verify_webhook_signature s sig secret = none) := by
  refine ⟨?_, ?_, ?_, ?_, ?_⟩
  · intro s d secret h
    simp [verify_webhook_signature, h, compare_digest, sign_ascii]
  · intro d secret
    refine ⟨hexOfBytes (hmacSha256 (utf8Encode secret) (utf8Encode (dumps d))),
            rfl, ?_, hexOfBytes_all _⟩
    rw [hexOfBytes_length, hmacSha256_length]
  · intro kvs kvs2 secret hp hnd
    unfold sign_webhook_payload
    have hs : sortItems kvs = sortItems kvs2 := sortItems_perm_eq kvs kvs2 hp hnd
    have hd : dumps (Json.obj kvs) = dumps (Json.obj kvs2) := by
      unfold dumps
      rw [serJson_obj, serJson_obj, hs]
    rw [hd]
  · intro s d secret sig h hA hne
    simp [verify_webhook_signature, h, compare_digest, hA, sign_ascii]
    exact hne
  · intro s d secret sig h hA
    simp [verify_webhook_signature, h, compare_digest, hA]

theorem c3_sign_verify_roundtrip_witness :
    (loads "\x7b\x22a\x22: 1\x7d" = some (Json.obj [("a", Json.int 1)]))
  ∧ verify_webhook_signature "\x7b\x22a\x22: 1\x7d"
      (sign_webhook_payload (Json.obj [("a", Json.int 1)]) "s3cret") "s3cret" = some true
  ∧ ([("a", Json.int 1), ("b", Json.bool true)].Perm
       [("b", Json.bool true), ("a", Json.int 1)])
  ∧ sign_webhook_payload (Json.obj [("a", Json.int 1), ("b", Json.bool true)]) "k" =
      sign_webhook_payload (Json.obj [("b", Json.bool true), ("a", Json.int 1)]) "k"
  ∧ (isAsciiStr "x" = true)
  ∧ ("x" ≠ sign_webhook_payload (Json.obj [("a", Json.int 1)]) "s3cret")
  ∧ verify_webhook_signature "\x7b\x22a\x22: 1\x7d" "x" "s3cret" = some false
  ∧ (isAsciiStr "ü" = false)
  ∧ verify_webhook_signature "\x7b\x22a\x22: 1\x7d" "ü" "s3cret" = none := by
  have hload : loads "\x7b\x22a\x22: 1\x7d" = some (Json.obj [("a", Json.int 1)]) := by rfl
  have hperm : [("a", Json.int 1), ("b", Json.bool true)].Perm
      [("b", Json.bool true), ("a", Json.int 1)] := List.Perm.swap _ _ []
  have hne : "x" ≠ sign_webhook_payload (Json.obj [("a", Json.int 1)]) "s3cret" := by
    intro h
    have hl := sign_length (Json.obj [("a", Json.int 1)]) "s3cret"
    rw [← h] at hl
    exact absurd hl (by decide)
  exact ⟨hload,
         c3_sign_verify_roundtrip.1 _ _ "s3cret" hload,
         hperm,
         c3_sign_verify_roundtrip.2.2.1 _ _ "k" hperm (by decide),
         by decide,
         hne,
         c3_sign_verify_roundtrip.2.2.2.1 _ _ "s3cret" "x" hload (by decide) hne,
         by decide,
         c3_sign_verify_roundtrip.2.2.2.2 _ _ "s3cret" "ü" hload (by decide)⟩

/-- C4 counterexample: the claim says `verify` fails closed — returning
false rather than raising — on an unparsable payload string, but
`verify_webhook_signature` calls `json.loads(payload)` with no exception
handler, so the decode error propagates (modelled as `none`, not
`some false`). -/
theorem c4_counterexample_unparsable_payload :
    verify_webhook_signature "not json" "sha256=deadbeef" "secret" = none := by rfl

/-- C4 (amended): whenever the payload string parses as JSON and the
signature is ASCII, `verify` returns a boolean without raising — false for
any signature other than the correct one; but it raises rather than
returning false in two cases: an unparsable payload string raises the
`json.loads` decode error, and a signature containing a non-ASCII character
makes `hmac.compare_digest` raise `TypeError`. -/
theorem c4_verify_failure_modes :
    (∀ (payload sig secret : String), loads payload = none →
       verify_webhook_signature payload sig secret = none)
  ∧ (∀ (payload sig secret : String) (d : Json), loads payload = some d →
       isAsciiStr sig = true → sig ≠ sign_webhook_payload d secret →
       verify_webhook_signature payload sig secret = some false)
  ∧ (∀ (payload sig secret : String) (d : Json), loads payload = some d →
       isAsciiStr sig = false →
       verify_webhook_signature payload sig secret = none) := by
  refine ⟨?_, ?_, ?_⟩
  · intro p sig sec h
    simp [verify_webhook_signature, h]
  · intro p sig sec d h hA hne
    simp [verify_webhook_signature, h, compare_digest, hA, sign_ascii]
    exact hne
  · intro p sig sec d h hA
    simp [verify_webhook_signature, h, compare_digest, hA]

theorem c4_verify_failure_modes_witness :
    (loads "oops" = none)
  ∧ verify_webhook_signature "oops" "sig" "k" = none
  ∧ (loads "3" = some (Json.int 3))
  ∧ (isAsciiStr "bogus" = true)
  ∧ ("bogus" ≠ sign_webhook_payload (Json.int 3) "k")
  ∧ verify_webhook_signature "3" "bogus" "k" = some false
  ∧ (isAsciiStr "bógus" = false)
  ∧ verify_webhook_signature "3" "bógus" "k" = none := by
  have h1 : loads "oops" = none := by rfl
  have h2 : loads "3" = some (Json.int 3) := by rfl
  have hne : "bogus" ≠ sign_webhook_payload (Json.int 3) "k" := by
    intro h
    have hl := sign_length (Json.int 3) "k"
    rw [← h] at hl
    exact absurd hl (by decide)
  exact ⟨h1, c4_verify_failure_modes.1 _ "sig" "k" h1, h2, by decide, hne,
         c4_verify_failure_modes.2.1 _ "bogus" "k" _ h2 (by decide) hne,
         by decide,
         c4_verify_failure_modes.2.2 _ "bógus" "k" _ h2 (by decide)⟩

def c9Responses : List (ResponseStatus × Int) :=
  [(ResponseStatus.completed, 9), (ResponseStatus.completed, 9),
   (ResponseStatus.completed, 10), (ResponseStatus.completed, 8),
   (ResponseStatus.completed, 7), (ResponseStatus.completed, 6),
   (ResponseStatus.completed, 3), (ResponseStatus.completed, 2),
   (ResponseStatus.completed, 9), (ResponseStatus.completed, 10)]

/-- C9: for 10 completed NPS responses with scores
[9,9,10,8,7,6,3,2,9,10], the aggregation reports promoter_count = 5,
passive_count = 2, detractor_count = 3 and total_responses = 10, under the
NPS classification promoter ≥ 9, passive 7-8, detractor ≤ 6. -/
theorem c9_analytics_counts :
    aggregateNps c9Responses =
      { promoter_count := 5, passive_count := 2, detractor_count := 3,
        total_responses := 10 }
  ∧ (∀ s : Int, 9 ≤ s → npsBucket s = NpsBucket.promoter)
  ∧ (∀ s : Int, 7 ≤ s → s ≤ 8 → npsBucket s = NpsBucket.passive)
  ∧ (∀ s : Int, s ≤ 6 → npsBucket s = NpsBucket.detractor) := by
  refine ⟨by decide, ?_, ?_, ?_⟩
  · intro s hs
    simp [npsBucket, hs]
  · intro s h7 h8
    have h9 : ¬ (9 ≤ s) := by omega
    simp [npsBucket, h9, h7]
  · intro s h6
    have h9 : ¬ (9 ≤ s) := by omega
    have h7 : ¬ (7 ≤ s) := by omega
    simp [npsBucket, h9, h7]

theorem c9_analytics_counts_witness :
    ((9 : Int) ≤ 9 ∧ npsBucket 9 = NpsBucket.promoter)
  ∧ ((7 : Int) ≤ 7 ∧ (7 : Int) ≤ 8 ∧ npsBucket 7 = NpsBucket.passive)
  ∧ ((6 : Int) ≤ 6 ∧ npsBucket 6 = NpsBucket.detractor) :=
  ⟨⟨le_refl 9, c9_analytics_counts.2.1 9 (le_refl 9)⟩,
   ⟨le_refl 7, by decide, c9_analytics_counts.2.2.1 7 (le_refl 7) (by decide)⟩,
   ⟨le_refl 6, c9_analytics_counts.2.2.2 6 (le_refl 6)⟩⟩

end SurveyPlugin
